import Mathlib

/-!
Verification of the in-guest metadata/event socket subsystem
(`cmd/incusd/dev_incus.go`): peer-credential tracker, container resolver,
authorisation gate, guest API handlers and their feature gates.

The Go code is shallowly embedded: Go `map[K]V` values become association
lists, fallible calls become `Except`/`Option`, and the stateful pieces
(the credential map, the instance's volatile config) are passed explicitly.
Collaborators that live outside the excerpt (shared `util` boolean parsing,
the id-map shift, the status-code vocabulary, the `VolatileSet` mutator)
are modelled from the specification and marked as such.
-/

namespace DevIncus

/-! ### Association-list primitives mirroring Go map operations -/

/-- Lookup in an association list; mirrors Go `v, ok := m[k]`. -/
def alookup {α : Type} {β : Type} [DecidableEq α] (m : List (α × β)) (k : α) : Option β :=
  match m with
  | [] => none
  | (k', v) :: t => if k' = k then some v else alookup t k

/-- Insert-or-replace; mirrors Go `m[k] = v`. -/
def aset {α : Type} {β : Type} [DecidableEq α] (m : List (α × β)) (k : α) (v : β) :
    List (α × β) :=
  match m with
  | [] => [(k, v)]
  | (k', v') :: t => if k' = k then (k, v) :: t else (k', v') :: aset t k v

/-- Delete; mirrors Go `delete(m, k)`. -/
def adel {α : Type} {β : Type} [DecidableEq α] (m : List (α × β)) (k : α) : List (α × β) :=
  m.filter (fun kv => decide (kv.1 ≠ k))

/-- Go map indexing on a `map[string]string`: a missing key reads as `""`. -/
def mget (m : List (String × String)) (k : String) : String :=
  (alookup m k).getD ""

/-! ### Go string primitives

All string operations are implemented by structural recursion over the
character lists so that concrete instances evaluate inside the kernel. -/

/-- Is the first list a leading segment of the second? -/
def listPre : List Char → List Char → Bool
  | [], _ => true
  | _ :: _, [] => false
  | p :: ps, c :: cs => p == c && listPre ps cs

/-- Remove a leading segment, returning the remainder when it is present. -/
def stripPre : List Char → List Char → Option (List Char)
  | [], s => some s
  | _ :: _, [] => none
  | p :: ps, c :: cs => if p == c then stripPre ps cs else none

/-- Go `strings.HasPrefix` (also the guts of `HasSuffix`). -/
def goStartsWith (s pat : String) : Bool := listPre pat.data s.data

def goEndsWith (s pat : String) : Bool := listPre pat.data.reverse s.data.reverse

/-- Splitting worker: fuel-indexed so the recursion is structural; fuel
`s.length + 1` always suffices for a non-empty separator. -/
def splitF (sep : List Char) : Nat → List Char → List Char → List (List Char)
  | _, [], acc => [acc.reverse]
  | 0, s, acc => [acc.reverse ++ s]
  | fuel + 1, c :: rest, acc =>
    match stripPre sep (c :: rest) with
    | some rem => acc.reverse :: splitF sep fuel rem []
    | none => splitF sep fuel rest (c :: acc)

/-- Go `strings.Split` for a non-empty separator. -/
def goSplit (s pat : String) : List String :=
  (splitF pat.data (s.data.length + 1) s.data []).map (fun l => ⟨l⟩)

/-- Go `strings.Contains` (for a non-empty pattern). -/
def goContains (s pat : String) : Bool :=
  decide ((goSplit s pat).length > 1)

/-- Go `strings.ToLower` (ASCII, which is all the vocabulary needs). -/
def goToLower (s : String) : String := ⟨s.data.map Char.toLower⟩

/-- Go `strings.TrimSuffix`. -/
def trimSuffix (s suf : String) : String :=
  if goEndsWith s suf then ⟨s.data.take (s.data.length - suf.data.length)⟩ else s

def joinSep (sep : String) : List String → String
  | [] => ""
  | [x] => x
  | x :: y :: rest => x ++ sep ++ joinSep sep (y :: rest)

/-- Go `strings.SplitN(s, sep, 2)` as a pair. -/
def splitN2 (s sep : String) : String × String :=
  match goSplit s sep with
  | [] => (s, "")
  | x :: rest => (x, joinSep sep rest)

/-- Go `fmt` `%q` on the strings appearing here (no escaping needed). -/
def goQuote (s : String) : String := "\"" ++ s ++ "\""

/-! ### Shared helpers modelled from the spec (their sources are not in the excerpt) -/

/-- Modelled from the spec: `util.IsTrue` of the shared util package (not under
`src/`): the config value reads as boolean true in the shared boolean
vocabulary, case-insensitively. -/
def IsTrue (v : String) : Bool :=
  ["true", "1", "yes", "on"].contains (goToLower v)

/-- Modelled from the spec: `util.IsFalse` of the shared util package (not under
`src/`): the config value reads as boolean false; the spec's feature-gate view
is `guestapi_enabled = expanded_config["guestapi"] is not false`. -/
def IsFalse (v : String) : Bool :=
  ["false", "0", "no", "off"].contains (goToLower v)

/-- Modelled from the spec: `util.IsFalseOrEmpty` of the shared util package
(not under `src/`). The spec's feature-gate view reads
`guestapi_images_enabled = expanded_config["guestapi.images"] is true`, and the
image-export guard rejects exactly when that gate is off, i.e. when the value
does not read as true. -/
def IsFalseOrEmpty (v : String) : Bool :=
  !(IsTrue v)

/-- Status codes relevant to the guest API PATCH (Started, Ready, anything else). -/
inductive GoStatus
  | started
  | ready
  | other
deriving DecidableEq

/-- Modelled from the spec: `api.StatusCodeFromString` (not under `src/`);
"case-insensitive, matched via the shared status vocabulary". -/
def statusCodeFromString (s : String) : GoStatus :=
  if goToLower s = "started" then .started
  else if goToLower s = "ready" then .ready
  else .other

/-! ### Instances and id-maps -/

inductive IType
  | container
  | vm
deriving DecidableEq

def IType.str : IType → String
  | .container => "container"
  | .vm => "virtual-machine"

/-- One range of an id-map, as in the spec's data model:
`(kind, ns_base, host_base, count)`. -/
structure IdmapEntry where
  isUid : Bool
  isGid : Bool
  hostid : Int
  nsid : Int
  maprange : Int
deriving DecidableEq

/-- Modelled from the spec: the id-map's deterministic shift function (the
shared idmap package is not under `src/`). The spec's data model gives an
ordered set of ranges with a shift that maps an in-namespace uid to the host
uid of the first uid range containing it; the subsystem only ever applies it
to in-namespace uid 0. -/
def shiftIntoNS (m : List IdmapEntry) (nsuid : Int) : Int × Bool :=
  match m.find? (fun e => e.isUid && decide (e.nsid ≤ nsuid ∧ nsuid < e.nsid + e.maprange)) with
  | some e => (e.hostid + (nsuid - e.nsid), true)
  | none => (nsuid, false)

/-- Go `uint32(i)` for an `int64` value. -/
def u32 (i : Int) : Nat := (i % 4294967296).toNat

/-- Go `int32(i)` for an `int` value (two's-complement truncation). -/
def i32 (i : Int) : Int :=
  let r := i % 4294967296
  if r < 2147483648 then r else r - 4294967296

deriving instance DecidableEq for Except

/-- The instance handle consumed by the subsystem (spec §3: id, name, project
name, type, location, running flag, init PID, current id-map, local config,
expanded config, expanded devices, cloud-init id). -/
structure Inst where
  name : String
  project : String
  typ : IType
  running : Bool
  initPid : Int
  location : String
  cloudInitID : String
  localConfig : List (String × String)
  expandedConfig : List (String × String)
  expandedDevices : List (String × List (String × String))
  currentIdmap : Except String (Option (List IdmapEntry))
deriving DecidableEq

/-- `c.Type() == instancetype.VM`, the flag passed to every response. -/
def isVM (c : Inst) : Bool := decide (c.typ = IType.vm)

/-- Modelled from the spec: the instance handle's `VolatileSet(map)` mutator
sets the given keys in the instance's local config. -/
def volatileSet (c : Inst) (kvs : List (String × String)) : Inst :=
  { c with localConfig := kvs.foldl (fun m kv => aset m kv.1 kv.2) c.localConfig }

/-! ### Responses -/

/-- Payload of `apiGuest.DevIncusGet`. -/
structure DevIncusGet where
  apiVersion : String
  location : String
  instanceType : String
  state : String
deriving DecidableEq

/-- Payload of `apiGuest.DevIncusPut`. -/
structure DevIncusPut where
  state : String
deriving DecidableEq

inductive Payload
  | raw (s : String)
  | strs (l : List String)
  | info (g : DevIncusGet)
  | devs (d : List (String × List (String × String)))
deriving DecidableEq

/-- The two response constructors used by the handlers:
`response.DevIncusErrorResponse(api.StatusErrorf(code, msg), vm)` and
`response.DevIncusResponse(code, payload, format, vm)`. -/
inductive DResp
  | errR (code : Nat) (msg : String) (vm : Bool)
  | okR (code : Nat) (p : Payload) (format : String) (vm : Bool)
deriving DecidableEq

def respCode : DResp → Nat
  | .errR c _ _ => c
  | .okR c _ _ _ => c

/-! ### The guest API handlers (from `dev_incus.go`) -/

/-- `devIncusConfigGet` (`/1.0/config`). -/
def devIncusConfigGet (c : Inst) : DResp :=
  if IsFalse (mget c.expandedConfig "security.guestapi") then
    .errR 403 "not authorized" (isVM c)
  else
    .okR 200
      (.strs ((c.expandedConfig.filter
          (fun kv => goStartsWith kv.1 "user." || goStartsWith kv.1 "cloud-init.")).map
          (fun kv => "/1.0/config/" ++ kv.1)))
      "json" (isVM c)

/-- `devIncusConfigKeyGet` (`/1.0/config/{key}`); the `key` argument is the
path variable after URL unescaping (the unescape itself is done by the outer
HTTP machinery). -/
def devIncusConfigKeyGet (c : Inst) (key : String) : DResp :=
  if IsFalse (mget c.expandedConfig "security.guestapi") then
    .errR 403 "not authorized" (isVM c)
  else if !(goStartsWith key "user." || goStartsWith key "cloud-init.") then
    .errR 403 "not authorized" (isVM c)
  else
    match alookup c.expandedConfig key with
    | none => .errR 404 "not found" (isVM c)
    | some v => .okR 200 (.raw v) "raw" (isVM c)

/-- `devIncusMetadataGet` (`/1.0/meta-data`). -/
def devIncusMetadataGet (c : Inst) : DResp :=
  if IsFalse (mget c.expandedConfig "security.guestapi") then
    .errR 403 "not authorized" (isVM c)
  else
    .okR 200
      (.raw ("#cloud-config\ninstance-id: " ++ c.cloudInitID ++ "\nlocal-hostname: "
        ++ c.name ++ "\n" ++ mget c.expandedConfig "user.meta-data"))
      "raw" (isVM c)

/-- `devIncusDevicesGet` (`/1.0/devices`): NIC `hwaddr` back-fill from
volatile local config. -/
def devIncusDevicesGet (c : Inst) : DResp :=
  if IsFalse (mget c.expandedConfig "security.guestapi") then
    .errR 403 "not authorized" (isVM c)
  else
    .okR 200
      (.devs (c.expandedDevices.map (fun nd =>
        let vol := mget c.localConfig ("volatile." ++ nd.1 ++ ".hwaddr")
        if mget nd.2 "type" = "nic" ∧ mget nd.2 "hwaddr" = "" ∧ vol ≠ "" then
          (nd.1, aset nd.2 "hwaddr" vol)
        else nd)))
      "json" (isVM c)

/-- GET branch of `devIncusAPIHandler` (`/1.0`). -/
def devIncusAPIGet (clustered : Bool) (hostname : Except String String) (c : Inst) : DResp :=
  let locE : Except String String := if clustered then .ok c.location else hostname
  match locE with
  | .error _ => .errR 500 "internal server error" (isVM c)
  | .ok loc =>
    let st := if IsTrue (mget c.localConfig "volatile.last_state.ready") then "Ready"
              else "Started"
    .okR 200 (.info ⟨"1.0", loc, c.typ.str, st⟩) "json" (isVM c)

/-- PATCH branch of `devIncusAPIHandler` (`/1.0`): returns the response, the
updated instance, and the kinds of lifecycle events sent on the outer bus. -/
def devIncusAPIPatch (c : Inst) (body : Except String DevIncusPut) :
    DResp × Inst × List String :=
  if IsFalse (mget c.expandedConfig "security.guestapi") then
    (.errR 403 "not authorized" (isVM c), c, [])
  else
    match body with
    | .error e => (.errR 400 e (isVM c), c, [])
    | .ok req =>
      let st := statusCodeFromString req.state
      if st ≠ GoStatus.started ∧ st ≠ GoStatus.ready then
        (.errR 400 ("Invalid state " ++ goQuote req.state) (isVM c), c, [])
      else
        let c' := volatileSet c
          [("volatile.last_state.ready", if st = GoStatus.ready then "true" else "false")]
        (.okR 200 (.raw "") "raw" (isVM c), c',
          if st = GoStatus.ready then ["instance-ready"] else [])

/-- Request methods reaching `devIncusAPIHandler`. -/
inductive Method
  | GET
  | PATCH
  | other (nm : String)
deriving DecidableEq

/-- `devIncusAPIHandler` (`/1.0`), with its method dispatch. -/
def devIncusAPIHandler (clustered : Bool) (hostname : Except String String)
    (c : Inst) (meth : Method) (body : Except String DevIncusPut) :
    DResp × Inst × List String :=
  match meth with
  | .GET => (devIncusAPIGet clustered hostname c, c, [])
  | .PATCH => devIncusAPIPatch c body
  | .other nm =>
    (.errR 405 ("method " ++ goQuote nm ++ " not allowed") (isVM c), c, [])

/-- A handler's observable outcome: a determined response, the hand-off to the
outer image-export handler, or the attachment of an event listener with a
filter set (the event fan-out itself is the outer event bus's job). -/
inductive HOutcome
  | resp (r : DResp)
  | proxied
  | attachEvents (types : List String)
deriving DecidableEq

/-- `devIncusEventsGet` (`/1.0/events`) up to its interaction with the event
bus: the feature gate and the filter-set computation. -/
def devIncusEventsGet (c : Inst) (typeParam : String) : HOutcome :=
  if IsFalse (mget c.expandedConfig "security.guestapi") then
    .resp (.errR 403 "not authorized" (isVM c))
  else
    .attachEvents (goSplit (if typeParam = "" then "config,device" else typeParam) ",")

/-- `devIncusImageExport` (`/1.0/images/{fingerprint}/export`) up to the proxy
call into the outer image-export handler. -/
def devIncusImageExport (c : Inst) : HOutcome :=
  if IsFalse (mget c.expandedConfig "security.guestapi") then
    .resp (.errR 403 "not authorized" (isVM c))
  else if IsFalseOrEmpty (mget c.expandedConfig "security.guestapi.images") then
    .resp (.errR 403 "not authorized" (isVM c))
  else
    .proxied

/-- The endpoints registered in `handlers`. -/
inductive Endpoint
  | root
  | api10 (m : Method)
  | config
  | configKey (key : String)
  | metadata
  | events
  | imageExport
  | devices
deriving DecidableEq

/-- Request data the embedded handlers consume: the decoded PATCH body and the
`type` form value of `/1.0/events`. -/
structure Req where
  body : Except String DevIncusPut
  typeParam : String
deriving DecidableEq

/-- A dispatched handler's full effect: outcome, instance afterwards, events
emitted on the outer bus. -/
structure HandlerOut where
  res : HOutcome
  inst : Inst
  events : List String
deriving DecidableEq

/-- The router's dispatch over the `handlers` table. -/
def dispatch (ep : Endpoint) (clustered : Bool) (hostname : Except String String)
    (c : Inst) (rq : Req) : HandlerOut :=
  match ep with
  | .root => ⟨.resp (.okR 200 (.strs ["/1.0"]) "json" (isVM c)), c, []⟩
  | .api10 meth =>
    let o := devIncusAPIHandler clustered hostname c meth rq.body
    ⟨.resp o.1, o.2.1, o.2.2⟩
  | .config => ⟨.resp (devIncusConfigGet c), c, []⟩
  | .configKey k => ⟨.resp (devIncusConfigKeyGet c k), c, []⟩
  | .metadata => ⟨.resp (devIncusMetadataGet c), c, []⟩
  | .events => ⟨devIncusEventsGet c rq.typeParam, c, []⟩
  | .imageExport => ⟨devIncusImageExport c, c, []⟩
  | .devices => ⟨.resp (devIncusDevicesGet c), c, []⟩

/-! ### Peer-credential tracker (`ConnPidMapper`) -/

/-- Kernel peer credentials (`unix.Ucred`). -/
structure Ucred where
  pid : Int
  uid : Nat
  gid : Nat
deriving DecidableEq

/-- Connections are identified by a stable handle. -/
def pctLookup (m : List (Nat × Ucred)) (conn : Nat) : Option Ucred :=
  alookup m conn

/-- The five `http.ConnState` values. -/
inductive GoConnState
  | stNew
  | stActive
  | stIdle
  | stHijacked
  | stClosed
deriving DecidableEq

/-- `ConnPidMapper.ConnStateHandler`: `cred` is the outcome of
`linux.GetUcred` on the connection (`none` when the kernel call failed). -/
def connStateHandler (m : List (Nat × Ucred)) (conn : Nat) (st : GoConnState)
    (cred : Option Ucred) : List (Nat × Ucred) :=
  match st with
  | .stNew =>
    match cred with
    | some cr => aset m conn cr
    | none => m
  | .stActive => m
  | .stIdle => m
  | .stHijacked => adel m conn
  | .stClosed => adel m conn

/-! ### The handler prologue (`hoistReq`) -/

/-- The computation of `rootUID` in `hoistReq`: starts at 0 and is replaced by
the shifted value only when `CurrentIdmap()` succeeds with a non-nil map. -/
def rootUIDof (c : Inst) : Nat :=
  match c.currentIdmap with
  | .ok (some m) => u32 (shiftIntoNS m 0).1
  | _ => 0

/-- `hoistReq`'s result: a plain `http.Error` (carrying the resolved instance,
untouched, when resolution had already succeeded) or the rendered handler
output. -/
inductive HoistOut
  | plainErr (code : Nat) (msg : String) (inst : Option Inst)
  | rendered (o : HandlerOut)
deriving DecidableEq

/-- `hoistReq`: credential lookup, container resolution, the root-uid access
gate, then the wrapped handler. `resolve` stands for
`findContainerForPid(·, s)`. -/
def hoistReq (ep : Endpoint) (clustered : Bool) (hostname : Except String String)
    (rq : Req) (pct : List (Nat × Ucred)) (conn : Nat)
    (resolve : Int → Except String Inst) : HoistOut :=
  match pctLookup pct conn with
  | none => .plainErr 500 "pid not in container?" none
  | some cred =>
    match resolve cred.pid with
    | .error e => .plainErr 500 e none
    | .ok c =>
      if rootUIDof c ≠ cred.uid then
        .plainErr 401 "Access denied for non-root user" (some c)
      else
        .rendered (dispatch ep clustered hostname c rq)

/-! ### Container resolver (`findContainerForPid`) -/

/-- The readable slices of the kernel's process file system the resolver
consults: `/proc/<pid>/cmdline`, `/proc/<pid>/status`, and the
`/proc/<pid>/ns/pid` link target. A missing entry is a read error. -/
structure Sys where
  cmdlines : List (Int × String)
  statuses : List (Int × String)
  pidns : List (Int × String)
deriving DecidableEq

/-- Characters matched by the regexp class `\s`. -/
def goIsSpace (ch : Char) : Bool :=
  ch == ' ' || ch == '\t' || ch == '\n' || ch == '\r' || ch == '\x0c'

/-- One line against the regexp `^PPid:\s+([0-9]+)$`: the captured digits. -/
def parsePPidLine (line : String) : Option String :=
  if goStartsWith line "PPid:" then
    let rest := line.data.drop 5
    let ws := rest.takeWhile goIsSpace
    let num := rest.dropWhile goIsSpace
    if ws.length ≥ 1 ∧ num.length ≥ 1 ∧ num.all Char.isDigit then some ⟨num⟩ else none
  else none

/-- Go `strconv.Atoi` on a digits-only string (64-bit range check). -/
def goAtoi (s : String) : Except String Int :=
  let n := s.data.foldl (fun acc ch => acc * 10 + (ch.toNat - 48)) 0
  if n ≤ 9223372036854775807 then .ok (Int.ofNat n)
  else .error ("strconv.Atoi: parsing " ++ goQuote s ++ ": value out of range")

/-- `instance.LoadByProjectAndName` over the node's instance store. -/
def loadByProjectAndName (store : List Inst) (proj nm : String) : Except String Inst :=
  match store.find? (fun i => i.project == proj && i.name == nm) with
  | some i => .ok i
  | none => .error "Instance not found"

/-- What one iteration of the ancestry walk does at a given pid. -/
inductive StepRes
  | found (i : Inst)
  | failed (e : String)
  | climb (p : Int)
deriving DecidableEq

/-- One iteration of the ancestry-walk loop body of `findContainerForPid`. -/
def walkStep (sys : Sys) (store : List Inst) (pid : Int) : StepRes :=
  match alookup sys.cmdlines pid with
  | none => .failed "no such process (cmdline)"
  | some cmdline =>
    match alookup sys.statuses pid with
    | none => .failed "no such process (status)"
    | some status =>
      if goStartsWith cmdline "[lxc monitor]"
          && goContains status ("NSpid:\t" ++ toString pid ++ "\n") then
        let parts := goSplit cmdline " "
        let nm0 := trimSuffix (parts.getLastD "") "\x00"
        let pr := if goContains nm0 "_" then splitN2 nm0 "_" else ("default", nm0)
        match loadByProjectAndName store pr.1 pr.2 with
        | .error e => .failed e
        | .ok inst =>
          if inst.typ ≠ IType.container then .failed "Instance is not container type"
          else .found inst
      else
        match (goSplit status "\n").findSome? parsePPidLine with
        | none => .climb pid
        | some numStr =>
          match goAtoi numStr with
          | .error e => .failed e
          | .ok n => .climb (i32 n)

/-- Outcome of the walk: a definite result, or falling through to the
namespace-identity fallback. -/
inductive WalkRes
  | got (r : Except String Inst)
  | fellThrough
deriving DecidableEq

/-- The `for pid > 1` loop of `findContainerForPid`, fuel-indexed (`none`
means the given iteration budget was exhausted, i.e. the Go loop is still
running). -/
def ancWalk (sys : Sys) (store : List Inst) : Nat → Int → Option WalkRes
  | 0, pid => if pid ≤ 1 then some WalkRes.fellThrough else none
  | fuel + 1, pid =>
    if pid ≤ 1 then some WalkRes.fellThrough
    else
      match walkStep sys store pid with
      | .found i => some (.got (.ok i))
      | .failed e => some (.got (.error e))
      | .climb p => ancWalk sys store fuel p

/-- The scan over running containers inside the fallback. -/
def fallbackGo (sys : Sys) (origNs : String) : List Inst → Except String Inst
  | [] => .error "pid not in container?"
  | i :: rest =>
    if i.typ ≠ IType.container then fallbackGo sys origNs rest
    else if !i.running then fallbackGo sys origNs rest
    else
      match alookup sys.pidns i.initPid with
      | none => .error "no such process (ns/pid)"
      | some ns => if ns = origNs then .ok i else fallbackGo sys origNs rest

/-- The namespace-identity fallback of `findContainerForPid` (`store` models
the outcome of `instance.LoadNodeAll(s, instancetype.Container)`, which
returns the node's container instances). -/
def fallbackSearch (sys : Sys) (store : List Inst) (origpid : Int) : Except String Inst :=
  match alookup sys.pidns origpid with
  | none => .error "no such process (ns/pid)"
  | some origNs =>
    fallbackGo sys origNs (store.filter (fun i => decide (i.typ = IType.container)))

/-- `findContainerForPid`, fuel-indexed: `none` means the ancestry walk had
not finished within `fuel` iterations. -/
def findContainerForPid (fuel : Nat) (sys : Sys) (store : List Inst) (pid : Int) :
    Option (Except String Inst) :=
  match ancWalk sys store fuel pid with
  | none => none
  | some (.got r) => some r
  | some .fellThrough => some (fallbackSearch sys store pid)

/-- The ancestry walk runs forever on this input: no fuel bound suffices. -/
def walkDiverges (sys : Sys) (store : List Inst) (pid : Int) : Prop :=
  ∀ fuel, findContainerForPid fuel sys store pid = none

/-! ## Shared lemmas about the map primitives -/

theorem alookup_adel {α β : Type} [DecidableEq α] (m : List (α × β)) (k : α) :
    alookup (adel m k) k = none := by
  induction m with
  | nil => rfl
  | cons kv t ih =>
    simp only [adel, List.filter_cons]
    split
    · rename_i hkeep
      simp only [decide_eq_true_eq] at hkeep
      simpa [alookup, hkeep, adel] using ih
    · simpa [adel] using ih

theorem alookup_aset {α β : Type} [DecidableEq α] (m : List (α × β)) (k : α) (v : β) :
    alookup (aset m k v) k = some v := by
  induction m with
  | nil => simp [aset, alookup]
  | cons kv t ih =>
    by_cases h : kv.1 = k
    · simp [aset, h, alookup]
    · simp [aset, h, alookup, ih]

theorem mget_aset (m : List (String × String)) (k : String) (v : String) :
    mget (aset m k v) k = v := by
  simp [mget, alookup_aset]

/-! ## C2: the connection-state callback's map invariant -/

/-- C2: a transition to `hijacked` or `closed` leaves no entry for that
connection; a transition to `new` inserts the captured credentials exactly
when the kernel call succeeded and leaves the map unchanged when it failed;
`active` and `idle` leave the map unchanged. -/
theorem connStateHandler_map_invariant (m : List (Nat × Ucred)) (conn : Nat)
    (cred : Option Ucred) (cr : Ucred) :
    pctLookup (connStateHandler m conn .stHijacked cred) conn = none
    ∧ pctLookup (connStateHandler m conn .stClosed cred) conn = none
    ∧ connStateHandler m conn .stNew none = m
    ∧ connStateHandler m conn .stNew (some cr) = aset m conn cr
    ∧ pctLookup (connStateHandler m conn .stNew (some cr)) conn = some cr
    ∧ connStateHandler m conn .stActive cred = m
    ∧ connStateHandler m conn .stIdle cred = m := by
  refine ⟨?_, ?_, rfl, rfl, ?_, rfl, rfl⟩
  · simpa [connStateHandler, pctLookup] using alookup_adel m conn
  · simpa [connStateHandler, pctLookup] using alookup_adel m conn
  · simpa [connStateHandler, pctLookup] using alookup_aset m conn cr

/-! ## C1 and C10: the access gate of the handler prologue -/

/-- The root uid as the claim words it: the host uid that the container's
current id-map assigns to in-namespace uid 0, taken to be host uid 0 when the
container has no id-map. -/
def claimedRootUID : Option (List IdmapEntry) → Nat
  | none => 0
  | some s => u32 (shiftIntoNS s 0).1

/-- C1: once the credentials are found and the container is resolved, and the
id-map lookup succeeds, the prologue rejects with 401
"Access denied for non-root user" exactly when the peer uid differs from the
host uid the id-map assigns to in-namespace uid 0 (host uid 0 when there is
no id-map), and the rejection leaves the resolved instance untouched. -/
theorem hoistReq_access_gate (ep : Endpoint) (clustered : Bool)
    (hostname : Except String String) (rq : Req) (pct : List (Nat × Ucred))
    (conn : Nat) (resolve : Int → Except String Inst) (cred : Ucred) (c : Inst)
    (idm : Option (List IdmapEntry))
    (hPct : pctLookup pct conn = some cred)
    (hRes : resolve cred.pid = .ok c)
    (hMap : c.currentIdmap = .ok idm) :
    (∀ io, hoistReq ep clustered hostname rq pct conn resolve
        = .plainErr 401 "Access denied for non-root user" io →
      cred.uid ≠ claimedRootUID idm ∧ io = some c)
    ∧ (cred.uid ≠ claimedRootUID idm →
      hoistReq ep clustered hostname rq pct conn resolve
        = .plainErr 401 "Access denied for non-root user" (some c)) := by
  have hRoot : rootUIDof c = claimedRootUID idm := by
    cases idm <;> simp [rootUIDof, hMap, claimedRootUID]
  constructor
  · intro io h
    simp only [hoistReq, hPct, hRes, hRoot] at h
    split at h
    · rename_i hne
      exact ⟨fun he => hne he.symm, by cases h; rfl⟩
    · cases h
  · intro hne
    simp only [hoistReq, hPct, hRes, hRoot]
    split
    · rfl
    · rename_i heq
      push_neg at heq
      exact absurd heq.symm hne

def c1Inst : Inst :=
  ⟨"web", "default", .container, true, 7, "node1", "i-1", [], [], [], .ok none⟩

def c1Cred : Ucred := ⟨42, 1000, 1000⟩

/-- Witness for C1: a peer uid of 1000 against an identity mapping is denied
with the instance untouched. -/
theorem hoistReq_access_gate_witness :
    hoistReq .config false (.ok "h") ⟨.ok ⟨""⟩, ""⟩ [(1, c1Cred)] 1
        (fun _ => .ok c1Inst)
      = .plainErr 401 "Access denied for non-root user" (some c1Inst) :=
  (hoistReq_access_gate .config false (.ok "h") ⟨.ok ⟨""⟩, ""⟩ [(1, c1Cred)] 1
      (fun _ => .ok c1Inst) c1Cred c1Inst none (by decide) rfl (by decide)).2
    (by decide)

/-- C10: when `CurrentIdmap()` itself fails, the gate silently keeps the
default host uid 0, so the request proceeds exactly when the peer uid is 0 and
is otherwise denied with 401 — never an internal error. -/
theorem hoistReq_idmap_error_gate (ep : Endpoint) (clustered : Bool)
    (hostname : Except String String) (rq : Req) (pct : List (Nat × Ucred))
    (conn : Nat) (resolve : Int → Except String Inst) (cred : Ucred) (c : Inst)
    (e : String)
    (hPct : pctLookup pct conn = some cred)
    (hRes : resolve cred.pid = .ok c)
    (hMap : c.currentIdmap = .error e) :
    hoistReq ep clustered hostname rq pct conn resolve
      = if cred.uid = 0 then .rendered (dispatch ep clustered hostname c rq)
        else .plainErr 401 "Access denied for non-root user" (some c) := by
  have hRoot : rootUIDof c = 0 := by simp [rootUIDof, hMap]
  simp only [hoistReq, hPct, hRes, hRoot]
  by_cases h : cred.uid = 0
  · simp [h]
  · have hne : (0 : Nat) ≠ cred.uid := fun hh => h hh.symm
    simp [h, hne]

def c10Inst : Inst :=
  ⟨"web", "default", .container, true, 7, "node1", "i-1", [], [], [],
    .error "idmap failure"⟩

def c10Cred : Ucred := ⟨42, 0, 0⟩

/-- Witness for C10: peer uid 0 proceeds to the handler although the id-map
lookup failed. -/
theorem hoistReq_idmap_error_gate_witness :
    hoistReq .root false (.ok "h") ⟨.ok ⟨""⟩, ""⟩ [(1, c10Cred)] 1
        (fun _ => .ok c10Inst)
      = .rendered (dispatch .root false (.ok "h") c10Inst ⟨.ok ⟨""⟩, ""⟩) := by
  have h := hoistReq_idmap_error_gate .root false (.ok "h") ⟨.ok ⟨""⟩, ""⟩
    [(1, c10Cred)] 1 (fun _ => .ok c10Inst) c10Cred c10Inst "idmap failure"
    (by decide) rfl (by decide)
  simpa using h

/-! ## C7: `/1.0/config/{key}` case analysis -/

/-- C7: with the guest API enabled, a key outside the `user.`/`cloud-init.`
projection is refused with 403, an allowed key absent from the expanded config
yields 404, and an allowed present key yields 200 with the raw value. -/
theorem devIncusConfigKeyGet_cases (c : Inst) (key : String)
    (hGate : IsFalse (mget c.expandedConfig "security.guestapi") = false) :
    ((goStartsWith key "user." || goStartsWith key "cloud-init.") = false →
      devIncusConfigKeyGet c key = .errR 403 "not authorized" (isVM c))
    ∧ ((goStartsWith key "user." || goStartsWith key "cloud-init.") = true →
      alookup c.expandedConfig key = none →
      devIncusConfigKeyGet c key = .errR 404 "not found" (isVM c))
    ∧ (∀ v, (goStartsWith key "user." || goStartsWith key "cloud-init.") = true →
      alookup c.expandedConfig key = some v →
      devIncusConfigKeyGet c key = .okR 200 (.raw v) "raw" (isVM c)) := by
  refine ⟨?_, ?_, ?_⟩
  · intro h
    simp [devIncusConfigKeyGet, hGate, h]
  · intro h hl
    simp [devIncusConfigKeyGet, hGate, h, hl]
  · intro v h hl
    simp [devIncusConfigKeyGet, hGate, h, hl]

def c7Inst : Inst :=
  ⟨"web", "default", .container, true, 7, "n", "i",
    [], [("user.hello", "world")], [], .ok none⟩

/-- Witness for C7: `GET /1.0/config/user.hello` on a container with
`user.hello=world` answers 200 with the raw value. -/
theorem devIncusConfigKeyGet_cases_witness :
    devIncusConfigKeyGet c7Inst "user.hello" = .okR 200 (.raw "world") "raw" (isVM c7Inst) :=
  (devIncusConfigKeyGet_cases c7Inst "user.hello" (by decide)).2.2 "world"
    (by decide) (by decide)

/-! ## C4: the feature gates across the endpoint table -/

/-- C4: with `security.guestapi` reading false every endpoint but the root
index and `/1.0` GET answers 403 "not authorized"; the image-export endpoint
additionally answers 403 unless `security.guestapi.images` reads true; the two
root discovery endpoints succeed regardless of the toggles. -/
theorem feature_gate_403 (clustered : Bool) (hostname : Except String String)
    (c : Inst) (rq : Req) :
    (∀ ep : Endpoint, ep ≠ .root → ep ≠ .api10 .GET →
      (∀ s, ep ≠ .api10 (.other s)) →
      IsFalse (mget c.expandedConfig "security.guestapi") = true →
      (dispatch ep clustered hostname c rq).res
        = .resp (.errR 403 "not authorized" (isVM c)))
    ∧ (IsFalse (mget c.expandedConfig "security.guestapi") = false →
      IsTrue (mget c.expandedConfig "security.guestapi.images") = false →
      (dispatch .imageExport clustered hostname c rq).res
        = .resp (.errR 403 "not authorized" (isVM c)))
    ∧ (dispatch .root clustered hostname c rq).res
        = .resp (.okR 200 (.strs ["/1.0"]) "json" (isVM c))
    ∧ (clustered = true →
      (dispatch (.api10 .GET) clustered hostname c rq).res
        = .resp (.okR 200 (.info ⟨"1.0", c.location, c.typ.str,
            if IsTrue (mget c.localConfig "volatile.last_state.ready") then "Ready"
            else "Started"⟩) "json" (isVM c))) := by
  refine ⟨?_, ?_, rfl, ?_⟩
  · intro ep h1 h2 h3 hf
    cases ep with
    | root => exact absurd rfl h1
    | api10 meth =>
      cases meth with
      | GET => exact absurd rfl h2
      | PATCH => simp [dispatch, devIncusAPIHandler, devIncusAPIPatch, hf]
      | other s => exact absurd rfl (h3 s)
    | config => simp [dispatch, devIncusConfigGet, hf]
    | configKey k => simp [dispatch, devIncusConfigKeyGet, hf]
    | metadata => simp [dispatch, devIncusMetadataGet, hf]
    | events => simp [dispatch, devIncusEventsGet, hf]
    | imageExport => simp [dispatch, devIncusImageExport, hf]
    | devices => simp [dispatch, devIncusDevicesGet, hf]
  · intro h1 h2
    simp [dispatch, devIncusImageExport, h1, IsFalseOrEmpty, h2]
  · intro hc
    subst hc
    simp [dispatch, devIncusAPIHandler, devIncusAPIGet]

def c4Inst : Inst :=
  ⟨"web", "default", .container, true, 7, "n", "i",
    [], [("security.guestapi", "false")], [], .ok none⟩

/-- Witness for C4: `/1.0/config` on a container whose config disables the
guest API answers 403. -/
theorem feature_gate_403_witness :
    (dispatch .config false (.ok "h") c4Inst ⟨.ok ⟨""⟩, ""⟩).res
      = .resp (.errR 403 "not authorized" (isVM c4Inst)) :=
  (feature_gate_403 false (.ok "h") c4Inst ⟨.ok ⟨""⟩, ""⟩).1 .config
    (fun h => Endpoint.noConfusion h) (fun h => Endpoint.noConfusion h)
    (fun _ h => Endpoint.noConfusion h) (by decide)

/-! ## C6: `/1.0/config` enumerates exactly the `user.`/`cloud-init.` keys -/

theorem string_append_left_cancel {a b c : String} (h : a ++ b = a ++ c) : b = c := by
  have hd : a.data ++ b.data = a.data ++ c.data := by
    have hdat := congrArg String.data h
    simpa [String.data_append] using hdat
  exact String.ext (List.append_cancel_left hd)

/-- C6: with the guest API enabled, the list `/1.0/config` returns has no
duplicates (the expanded config being a map, its keys are distinct) and holds
an entry exactly for each expanded-config key carrying the `user.` or
`cloud-init.` projection. -/
theorem devIncusConfigGet_keys (c : Inst)
    (hGate : IsFalse (mget c.expandedConfig "security.guestapi") = false)
    (hNd : (c.expandedConfig.map Prod.fst).Nodup) :
    ∃ l, devIncusConfigGet c = .okR 200 (.strs l) "json" (isVM c)
      ∧ l.Nodup
      ∧ ∀ s, s ∈ l ↔ ∃ k v, (k, v) ∈ c.expandedConfig
          ∧ (goStartsWith k "user." || goStartsWith k "cloud-init.") = true
          ∧ s = "/1.0/config/" ++ k := by
  refine ⟨(c.expandedConfig.filter
      (fun kv => goStartsWith kv.1 "user." || goStartsWith kv.1 "cloud-init.")).map
      (fun kv => "/1.0/config/" ++ kv.1), ?_, ?_, ?_⟩
  · simp [devIncusConfigGet, hGate]
  · have hsub : ((c.expandedConfig.filter
        (fun kv => goStartsWith kv.1 "user." || goStartsWith kv.1 "cloud-init.")).map
        Prod.fst).Sublist (c.expandedConfig.map Prod.fst) :=
      (List.filter_sublist _).map Prod.fst
    have h1 := hNd.sublist hsub
    have h2 : ((c.expandedConfig.filter
        (fun kv => goStartsWith kv.1 "user." || goStartsWith kv.1 "cloud-init.")).map
        (fun kv => "/1.0/config/" ++ kv.1))
        = ((c.expandedConfig.filter
        (fun kv => goStartsWith kv.1 "user." || goStartsWith kv.1 "cloud-init.")).map
        Prod.fst).map (fun k => "/1.0/config/" ++ k) := by
      simp [List.map_map, Function.comp]
    rw [h2]
    exact h1.map (fun k1 k2 hk => string_append_left_cancel hk)
  · intro s
    simp only [List.mem_map, List.mem_filter]
    constructor
    · rintro ⟨kv, ⟨hmem, hp⟩, rfl⟩
      exact ⟨kv.1, kv.2, hmem, hp, rfl⟩
    · rintro ⟨k, v, hmem, hp, rfl⟩
      exact ⟨(k, v), ⟨hmem, hp⟩, rfl⟩

def c6Inst : Inst :=
  ⟨"web", "default", .container, true, 7, "n", "i", [],
    [("user.a", "1"), ("limits.cpu", "2"), ("cloud-init.user-data", "x")],
    [], .ok none⟩

/-- Witness for C6 at a concrete three-key config. -/
theorem devIncusConfigGet_keys_witness :
    ∃ l, devIncusConfigGet c6Inst = .okR 200 (.strs l) "json" (isVM c6Inst)
      ∧ l.Nodup
      ∧ ∀ s, s ∈ l ↔ ∃ k v, (k, v) ∈ c6Inst.expandedConfig
          ∧ (goStartsWith k "user." || goStartsWith k "cloud-init.") = true
          ∧ s = "/1.0/config/" ++ k :=
  devIncusConfigGet_keys c6Inst (by decide) (by decide)

/-! ## C9: `/1.0/devices` NIC hwaddr back-fill -/

/-- The claim's wording of the transformation: a device of type `nic` with an
empty `hwaddr` whose name has a `volatile.<n>.hwaddr` value in local config
gets that value as its `hwaddr`; any other device is returned untouched. -/
def specNICBackfill (localConfig : List (String × String))
    (nd : String × List (String × String)) : String × List (String × String) :=
  if mget nd.2 "type" = "nic" ∧ mget nd.2 "hwaddr" = ""
      ∧ mget localConfig ("volatile." ++ nd.1 ++ ".hwaddr") ≠ "" then
    (nd.1, aset nd.2 "hwaddr" (mget localConfig ("volatile." ++ nd.1 ++ ".hwaddr")))
  else nd

/-- C9: with the guest API enabled, the device map `/1.0/devices` returns is
the expanded device map with exactly the claim's NIC back-fill applied. -/
theorem devIncusDevicesGet_backfill (c : Inst)
    (hGate : IsFalse (mget c.expandedConfig "security.guestapi") = false) :
    devIncusDevicesGet c
      = .okR 200 (.devs (c.expandedDevices.map (specNICBackfill c.localConfig)))
          "json" (isVM c) := by
  simp [devIncusDevicesGet, hGate, specNICBackfill]

def c9Inst : Inst :=
  ⟨"web", "default", .container, true, 7, "n", "i",
    [("volatile.eth0.hwaddr", "00:16:3e:aa:bb:cc")], [],
    [("eth0", [("type", "nic")]), ("root", [("type", "disk")])], .ok none⟩

/-- Witness for C9: the NIC gets its volatile hwaddr, the disk is untouched. -/
theorem devIncusDevicesGet_backfill_witness :
    devIncusDevicesGet c9Inst
      = .okR 200 (.devs [("eth0", [("type", "nic"), ("hwaddr", "00:16:3e:aa:bb:cc")]),
          ("root", [("type", "disk")])]) "json" (isVM c9Inst) := by
  rw [devIncusDevicesGet_backfill c9Inst (by decide)]
  decide

/-! ## C5: PATCH/GET round trip on `/1.0` -/

def c5Inst : Inst :=
  ⟨"web", "default", .container, true, 1, "loc", "i-42", [], [], [], .ok none⟩

/-- Counterexample for C5: after a first PATCH to ready the flag is set, and a
second identical PATCH emits the `instance-ready` lifecycle event again — the
handler sends it on every successful PATCH to ready without consulting the
previous state. -/
theorem patch_ready_repeat_emits_again :
    IsTrue (mget (devIncusAPIPatch c5Inst (.ok ⟨"ready"⟩)).2.1.localConfig
      "volatile.last_state.ready") = true
    ∧ (devIncusAPIPatch (devIncusAPIPatch c5Inst (.ok ⟨"ready"⟩)).2.1
        (.ok ⟨"ready"⟩)).2.2 = ["instance-ready"] := by
  decide

/-- C5 amended: a PATCH to ready succeeds, sets the flag and emits one
`instance-ready` event; a following GET reports state Ready; a second
identical PATCH emits the event again (one event per successful PATCH to
ready); a PATCH to Started clears the flag and emits no event. -/
theorem patch_get_roundtrip (c : Inst) (hostname : Except String String)
    (hGate : IsFalse (mget c.expandedConfig "security.guestapi") = false) :
    (devIncusAPIPatch c (.ok ⟨"ready"⟩)).1 = .okR 200 (.raw "") "raw" (isVM c)
    ∧ (devIncusAPIPatch c (.ok ⟨"ready"⟩)).2.2 = ["instance-ready"]
    ∧ devIncusAPIGet true hostname (devIncusAPIPatch c (.ok ⟨"ready"⟩)).2.1
        = .okR 200 (.info ⟨"1.0", c.location, c.typ.str, "Ready"⟩) "json" (isVM c)
    ∧ (devIncusAPIPatch (devIncusAPIPatch c (.ok ⟨"ready"⟩)).2.1 (.ok ⟨"ready"⟩)).2.2
        = ["instance-ready"]
    ∧ (devIncusAPIPatch c (.ok ⟨"started"⟩)).2.2 = []
    ∧ mget (devIncusAPIPatch c (.ok ⟨"started"⟩)).2.1.localConfig
        "volatile.last_state.ready" = "false" := by
  have hready : statusCodeFromString "ready" = .ready := by decide
  have hstart : statusCodeFromString "started" = .started := by decide
  refine ⟨?_, ?_, ?_, ?_, ?_, ?_⟩
  · simp [devIncusAPIPatch, hGate, hready]
  · simp [devIncusAPIPatch, hGate, hready]
  · have htrue : IsTrue "true" = true := by decide
    simp [devIncusAPIPatch, hGate, hready, devIncusAPIGet, volatileSet, mget_aset,
      isVM, htrue]
  · simp [devIncusAPIPatch, hGate, hready, volatileSet]
  · simp [devIncusAPIPatch, hGate, hstart]
  · simp [devIncusAPIPatch, hGate, hstart, volatileSet, mget_aset]

/-- Witness for the amended C5 at a concrete instance. -/
theorem patch_get_roundtrip_witness :
    devIncusAPIGet true (.ok "h") (devIncusAPIPatch c5Inst (.ok ⟨"ready"⟩)).2.1
      = .okR 200 (.info ⟨"1.0", c5Inst.location, c5Inst.typ.str, "Ready"⟩)
          "json" (isVM c5Inst) :=
  (patch_get_roundtrip c5Inst (.ok "h") (by decide)).2.2.1

/-! ## C3: what the resolver can return -/

def c3Inst : Inst :=
  ⟨"foo", "default", .container, false, 100, "loc", "i-1", [], [], [], .ok none⟩

def c3Sys : Sys :=
  ⟨[(2, "[lxc monitor] /var/lib/incus/containers foo\x00")],
    [(2, "NSpid:\t2\n")], []⟩

/-- Counterexample for C3: the ancestry walk returns an instance that is not
running — the monitor-match branch checks the instance type but never the
running flag. The namespace-identity fallback could not have produced this
result (it errors on this process table), so the non-running instance comes
from the walk. -/
theorem resolver_returns_nonrunning :
    findContainerForPid 5 c3Sys [c3Inst] 2 = some (.ok c3Inst)
    ∧ c3Inst.running = false
    ∧ fallbackSearch c3Sys [c3Inst] 2 = .error "no such process (ns/pid)" := by
  decide

theorem walkStep_found_container (sys : Sys) (store : List Inst) (pid : Int) (i : Inst)
    (h : walkStep sys store pid = .found i) : i.typ = IType.container := by
  simp only [walkStep] at h
  repeat' split at h
  all_goals simp_all

theorem ancWalk_ok_container (sys : Sys) (store : List Inst) :
    ∀ fuel pid i, ancWalk sys store fuel pid = some (.got (.ok i)) →
      i.typ = IType.container := by
  intro fuel
  induction fuel with
  | zero =>
    intro pid i h
    unfold ancWalk at h
    split at h <;> simp_all
  | succ f ih =>
    intro pid i h
    unfold ancWalk at h
    split at h
    · simp_all
    · split at h
      · rename_i inst hstep
        have := walkStep_found_container sys store pid inst hstep
        simp_all
      · simp_all
      · exact ih _ _ h

theorem fallbackGo_ok (sys : Sys) (origNs : String) :
    ∀ l i, fallbackGo sys origNs l = .ok i →
      i.typ = IType.container ∧ i.running = true := by
  intro l
  induction l with
  | nil =>
    intro i h
    simp [fallbackGo] at h
  | cons a t ih =>
    intro i h
    unfold fallbackGo at h
    repeat' split at h
    all_goals first
      | exact ih i h
      | simp_all

theorem fallbackSearch_ok (sys : Sys) (store : List Inst) (pid : Int) (i : Inst)
    (h : fallbackSearch sys store pid = .ok i) :
    i.typ = IType.container ∧ i.running = true := by
  unfold fallbackSearch at h
  split at h
  · simp at h
  · exact fallbackGo_ok sys _ _ i h

/-- C3 amended: every instance the resolver returns has container type; an
instance returned by the namespace-identity fallback — whether stated of
`fallbackSearch` itself or of a resolver run whose ancestry walk fell
through — is moreover running at the moment of return; the ancestry walk does
not verify the running flag. -/
theorem resolver_container_type :
    (∀ fuel sys store pid i,
      findContainerForPid fuel sys store pid = some (.ok i) →
      i.typ = IType.container)
    ∧ (∀ sys store pid i,
      fallbackSearch sys store pid = .ok i →
      i.typ = IType.container ∧ i.running = true)
    ∧ (∀ fuel sys store pid i,
      ancWalk sys store fuel pid = some WalkRes.fellThrough →
      findContainerForPid fuel sys store pid = some (.ok i) →
      i.typ = IType.container ∧ i.running = true) := by
  refine ⟨?_, ?_, ?_⟩
  · intro fuel sys store pid i h
    unfold findContainerForPid at h
    split at h
    · simp_all
    · rename_i r heq
      have hr : r = .ok i := by simpa using h
      subst hr
      exact ancWalk_ok_container sys store fuel pid i heq
    · have hf : fallbackSearch sys store pid = .ok i := by simpa using h
      exact (fallbackSearch_ok sys store pid i hf).1
  · intro sys store pid i h
    exact fallbackSearch_ok sys store pid i h
  · intro fuel sys store pid i hft h
    unfold findContainerForPid at h
    rw [hft] at h
    have hf : fallbackSearch sys store pid = .ok i := by simpa using h
    exact fallbackSearch_ok sys store pid i hf

def c3FbInst : Inst :=
  ⟨"bar", "default", .container, true, 50, "loc", "i-2", [], [], [], .ok none⟩

def c3FbSys : Sys :=
  ⟨[], [], [(9, "pid:[4026532100]"), (50, "pid:[4026532100]")]⟩

/-- Witness for the amended C3: a fallback match (the caller's pid namespace
equals the init pid's namespace) yields a running container. -/
theorem resolver_container_type_witness :
    c3FbInst.typ = IType.container ∧ c3FbInst.running = true :=
  resolver_container_type.2.1 c3FbSys [c3FbInst] 9 c3FbInst (by decide)

/-! ## C8: termination of the ancestry walk -/

def c8Sys : Sys := ⟨[(2, "x")], [(2, "PPid:\t2")], []⟩

/-- Counterexample for C8: a readable, PPid-parseable status file naming the
pid itself as parent keeps the walk at the same pid forever — no iteration
budget makes the resolver return. -/
theorem ancestry_walk_self_loop : walkDiverges c8Sys [] 2 := by
  have hstep : walkStep c8Sys [] 2 = .climb 2 := by decide
  have hanc : ∀ f, ancWalk c8Sys [] f 2 = none := by
    intro f
    induction f with
    | zero => decide
    | succ f ih =>
      unfold ancWalk
      rw [hstep]
      simpa using ih
  intro fuel
  simp [findContainerForPid, hanc]

/-- C8 amended: the walk terminates whenever each PPid climb strictly
decreases the pid (as it does in a real process tree); pid budget `pid`
iterations suffice; and an input pid of 0 or 1 skips the walk and goes
directly to the namespace-identity fallback. -/
theorem ancestry_walk_termination (sys : Sys) (store : List Inst)
    (hdec : ∀ p p', walkStep sys store p = .climb p' → p' < p) :
    (∀ pid fuel, pid.toNat ≤ fuel → findContainerForPid fuel sys store pid ≠ none)
    ∧ (∀ pid fuel, pid ≤ 1 → findContainerForPid fuel sys store pid
        = some (fallbackSearch sys store pid)) := by
  have hanc : ∀ fuel pid, pid.toNat ≤ fuel → ancWalk sys store fuel pid ≠ none := by
    intro fuel
    induction fuel with
    | zero =>
      intro pid hle
      have hp : pid ≤ 1 := by omega
      unfold ancWalk
      simp [hp]
    | succ f ih =>
      intro pid hle
      unfold ancWalk
      by_cases hp : pid ≤ 1
      · simp [hp]
      · simp only [hp, if_false]
        split
        · simp
        · simp
        · rename_i p' hstep
          exact ih p' (by have := hdec pid p' hstep; omega)
  constructor
  · intro pid fuel hle
    unfold findContainerForPid
    split
    · rename_i heq
      exact absurd heq (hanc fuel pid hle)
    · simp
    · simp
  · intro pid fuel hp
    have hft : ancWalk sys store fuel pid = some .fellThrough := by
      cases fuel with
      | zero => unfold ancWalk; simp [hp]
      | succ f => unfold ancWalk; simp [hp]
    unfold findContainerForPid
    rw [hft]

def c8EmptySys : Sys := ⟨[], [], []⟩

/-- Witness for the amended C8: on an empty process table the walk stops
within budget, and pid 1 goes straight to the fallback. -/
theorem ancestry_walk_termination_witness :
    findContainerForPid 3 c8EmptySys [] 2 ≠ none
    ∧ findContainerForPid 0 c8EmptySys [] 1 = some (fallbackSearch c8EmptySys [] 1) := by
  have h := ancestry_walk_termination c8EmptySys []
    (fun p p' hstep => by simp [walkStep, alookup] at hstep)
  exact ⟨h.1 2 3 (by decide), h.2 1 0 (by decide)⟩

end DevIncus
